import Mathlib

/-!
Verification of the NEO ingestion pipeline (`models.py`, `extract.py`).

The development shallowly embeds the Python source: Python runtime values are
an inductive `PyVal`, Python floats are `PyFloat` (a rational or the NaN
sentinel), fallible Python code returns `Except PyErr`, and the keyword-bag
constructors `NearEarthObject.__init__` / `CloseApproach.__init__` become
`NearEarthObject.init` / `CloseApproach.init` over association lists.
-/

/-- A Python runtime value, covering the shapes that flow through the
ingestion pipeline: CSV cells are strings, `json.load` produces strings,
numbers, booleans, `None`, lists and dicts, and `float('nan')` produces the
NaN sentinel (kept separate from `vNum` so that rationals model only genuine
numeric values). -/
inductive PyVal where
  | vStr (s : String)
  | vNum (q : ℚ)
  | vNan
  | vBool (b : Bool)
  | vNone
  | vList (xs : List PyVal)
  | vDict (kvs : List (PyVal × PyVal))

/-- A Python float as the pipeline uses it: either NaN (the unknown-numeric
sentinel) or an exact numeric value, modelled as a rational.  The inputs the
claims exercise are all exactly representable, so no rounding is modelled. -/
inductive PyFloat where
  | nan
  | num (q : ℚ)
deriving DecidableEq

/-- The Python exceptions the embedded code can raise. -/
inductive PyErr where
  | valueError (msg : String)
  | typeError (msg : String)
  | keyError (key : String)
  | attributeError (msg : String)
  | fileNotFoundError (msg : String)
deriving DecidableEq

/-- Python truthiness (`bool(v)`): empty string, zero, `False`, `None` and
empty containers are falsy; NaN is truthy. -/
def pyTruthy : PyVal → Bool
  | .vStr s => !s.isEmpty
  | .vNum q => q != 0
  | .vNan => true
  | .vBool b => b
  | .vNone => false
  | .vList xs => !xs.isEmpty
  | .vDict kvs => !kvs.isEmpty

/-- Strip leading and trailing whitespace, as `float(str)` does before
parsing. -/
def pyStrip (s : String) : List Char :=
  ((s.toList.dropWhile Char.isWhitespace).reverse.dropWhile Char.isWhitespace).reverse

/-- Numeric value of a list of decimal digit characters. -/
def digitsVal (cs : List Char) : ℕ :=
  cs.foldl (fun a c => 10 * a + (c.toNat - Char.toNat '0')) 0

/-- Consume an optional sign; `true` means negative. -/
def parseSign : List Char → Bool × List Char
  | '+' :: cs => (false, cs)
  | '-' :: cs => (true, cs)
  | cs => (false, cs)

/-- Parse a decimal literal (`digits`, `digits.digits`, `.digits` or
`digits.`), returning the mantissa, the number of fractional digits, and the
unconsumed rest; the value denoted is mantissa divided by ten to the
fractional length. -/
def parseDec (cs : List Char) : Option ((ℕ × ℕ) × List Char) :=
  let ip := cs.takeWhile Char.isDigit
  let r1 := cs.dropWhile Char.isDigit
  match r1 with
  | '.' :: r2 =>
    let fp := r2.takeWhile Char.isDigit
    let r3 := r2.dropWhile Char.isDigit
    if ip.isEmpty && fp.isEmpty then none
    else some ((digitsVal (ip ++ fp), fp.length), r3)
  | _ => if ip.isEmpty then none else some ((digitsVal ip, 0), r1)

/-- Parse an optional exponent suffix (`e`/`E`, sign, digits); the whole
remaining input must be consumed. -/
def parseExp : List Char → Option ℤ
  | [] => some 0
  | 'e' :: r | 'E' :: r =>
    let (neg, r2) := parseSign r
    let ds := r2.takeWhile Char.isDigit
    let r3 := r2.dropWhile Char.isDigit
    if ds.isEmpty || !r3.isEmpty then none
    else some (if neg then -(digitsVal ds : ℤ) else (digitsVal ds : ℤ))
  | _ => none

/-- The rational value of a parsed decimal: mantissa `m` with `s` fractional
digits, scaled by ten to the exponent `e`.  Built with `mkRat` over integer
arithmetic so that the kernel can evaluate it. -/
def decToRat (m : ℕ) (s : ℕ) (e : ℤ) : ℚ :=
  mkRat (m * 10 ^ e.toNat) (10 ^ (s + (-e).toNat))

/-- Python `float(s)` on a string: strip whitespace, optional sign, then a
decimal literal with optional exponent, or the keyword `nan`
(case-insensitive).  Infinities and digit underscores are outside the model:
no input of this dataset or of the claims produces them. -/
def pyParseFloat (s : String) : Option PyFloat :=
  let cs := pyStrip s
  let (neg, cs1) := parseSign cs
  if cs1.map Char.toLower = [ 'n', 'a', 'n' ] then some .nan
  else
    match parseDec cs1 with
    | none => none
    | some ((m, sc), rest) =>
      match parseExp rest with
      | none => none
      | some e =>
        let q := decToRat m sc e
        some (.num (if neg then -q else q))

/-- Python `float(v)` on an arbitrary value: numbers and booleans convert,
strings parse (raising `ValueError` on failure), everything else raises
`TypeError`. -/
def pyFloat : PyVal → Except PyErr PyFloat
  | .vStr s =>
    match pyParseFloat s with
    | some f => .ok f
    | none => .error (.valueError ("could not convert string to float: " ++ s))
  | .vNum q => .ok (.num q)
  | .vNan => .ok .nan
  | .vBool b => .ok (.num (if b then 1 else 0))
  | .vNone => .error (.typeError "float argument must be a string or a real number, not NoneType")
  | .vList _ => .error (.typeError "float argument must be a string or a real number, not list")
  | .vDict _ => .error (.typeError "float argument must be a string or a real number, not dict")

/-- The keyword-argument bag `info` received by the constructors: an
association list from field name to value.  Python dict keys are unique, so
first-match lookup models `dict.get`. -/
abbrev Dict := List (String × PyVal)

/-- Python `info.get(k)`: `some v` when the key is present, `none` when
absent. -/
def dget (d : Dict) (k : String) : Option PyVal :=
  (List.find? (fun p => p.1 == k) d).map (fun p => p.2)

/-- The `time` attribute of a `CloseApproach` after construction: `unset`
models the Python value `None` (missing key or explicit `None`), `raw v`
models a falsy non-`None` source value stored unconverted, and `parsed v`
models the result of the external helper `cd_to_datetime(v)`.
`cd_to_datetime` itself is external to the repository (`helpers.py`);
modelled from the spec: the core passes the raw date string through it and
propagates its output verbatim, so it is embedded as an abstract tag
carrying the raw value. -/
inductive TimeAttr where
  | unset
  | raw (v : PyVal)
  | parsed (v : PyVal)

mutual

/-- `models.NearEarthObject`: designation, optional name, diameter (km),
hazardous flag and the (constructor-empty) list of linked approaches. -/
inductive NearEarthObject where
  | mk (designation : PyVal) (name : Option PyVal) (diameter : PyFloat)
      (hazardous : Bool) (approaches : List CloseApproach)

/-- `models.CloseApproach`: private designation, time attribute, distance
(au), velocity (km/s) and the optional back-reference to its NEO. -/
inductive CloseApproach where
  | mk (designation0 : PyVal) (time : TimeAttr) (distance : PyFloat)
      (velocity : PyFloat) (neo : Option NearEarthObject)

end

def NearEarthObject.designation : NearEarthObject → PyVal
  | .mk d _ _ _ _ => d

def NearEarthObject.name : NearEarthObject → Option PyVal
  | .mk _ n _ _ _ => n

def NearEarthObject.diameter : NearEarthObject → PyFloat
  | .mk _ _ d _ _ => d

def NearEarthObject.hazardous : NearEarthObject → Bool
  | .mk _ _ _ h _ => h

def NearEarthObject.approaches : NearEarthObject → List CloseApproach
  | .mk _ _ _ _ a => a

/-- The `designation` property getter of `CloseApproach`, returning the
private `_designation` attribute. -/
def CloseApproach.designation : CloseApproach → PyVal
  | .mk d _ _ _ _ => d

def CloseApproach.time : CloseApproach → TimeAttr
  | .mk _ t _ _ _ => t

def CloseApproach.distance : CloseApproach → PyFloat
  | .mk _ _ d _ _ => d

def CloseApproach.velocity : CloseApproach → PyFloat
  | .mk _ _ _ v _ => v

def CloseApproach.neo : CloseApproach → Option NearEarthObject
  | .mk _ _ _ _ n => n

/-- The `name` assignment (models.py 44): `info.get("name") if
info.get("name") else None` — a truthy value is kept, anything else becomes
`None`. -/
def nameExpr : Option PyVal → Option PyVal
  | some v => if pyTruthy v then some v else none
  | none => none

/-- The `diameter` assignment (models.py 45-48): `float(info.get("diameter"))`
when the value is truthy (which can raise), NaN otherwise. -/
def diamExpr : Option PyVal → Except PyErr PyFloat
  | some v => if pyTruthy v then pyFloat v else .ok .nan
  | none => .ok .nan

/-- The `hazardous` assignment (models.py 49-54): `info.get("hazardous") ==
'Y'` → true, the explicit `== 'N'` branch → false, catch-all → false.  Only
a string value can compare equal to either literal. -/
def hazFlag : Option PyVal → Bool
  | some (.vStr s) => if s == "Y" then true else if s == "N" then false else false
  | _ => false

/-- `NearEarthObject.__init__` (models.py 37-57).  `designation` defaults to
the empty string; `approaches` starts empty; the diameter conversion is the
only failure point. -/
def NearEarthObject.init (info : Dict) : Except PyErr NearEarthObject :=
  match diamExpr (dget info "diameter") with
  | .error e => .error e
  | .ok diameter =>
    .ok (.mk ((dget info "designation").getD (.vStr ""))
          (nameExpr (dget info "name")) diameter (hazFlag (dget info "hazardous")) [])

/-- The `time` assignment (models.py 120-122): `info.get("time", None)`
followed by the guarded `cd_to_datetime` conversion — the external parse of
a truthy value; `None` (missing key or explicit `None` value) stays `None`;
any other falsy value is kept raw, unconverted. -/
def timeExpr : Option PyVal → TimeAttr
  | none => .unset
  | some .vNone => .unset
  | some v => if pyTruthy v then .parsed v else .raw v

/-- `CloseApproach.__init__` (models.py 113-127).  `_designation` defaults to
the empty string; `time` is `timeExpr` above; `distance` and `velocity` are
`float(info.get(..., float('nan')))`, which can raise; `neo` is
`info.get("neo", None)` — the loaders never pass a `neo` keyword and the
field bag carries only primitive values, so the default `None` applies. -/
def CloseApproach.init (info : Dict) : Except PyErr CloseApproach :=
  match pyFloat ((dget info "distance").getD .vNan) with
  | .error e => .error e
  | .ok distance =>
    match pyFloat ((dget info "velocity").getD .vNan) with
    | .error e => .error e
    | .ok velocity =>
      .ok (.mk ((dget info "designation").getD (.vStr ""))
            (timeExpr (dget info "time")) distance velocity none)

/-- Python `str(v)` as used inside the display f-strings.  Strings render
verbatim (the only case the dataset exercises: designations, names and date
strings are strings); the remaining cases are display approximations that no
claim inspects. -/
def pyStr : PyVal → String
  | .vStr s => s
  | .vNum q => toString q.num ++ (if q.den == 1 then ".0" else "/" ++ toString q.den)
  | .vNan => "nan"
  | .vBool b => if b then "True" else "False"
  | .vNone => "None"
  | .vList _ => "[...]"
  | .vDict _ => "\x7b...\x7d"

/-- The `fullname` property (models.py 59-65): designation with the name in
parentheses when a name exists, else the designation alone. -/
def NearEarthObject.fullname (neo : NearEarthObject) : String :=
  match neo.name with
  | some n => pyStr neo.designation ++ " (" ++ pyStr n ++ ")"
  | none => pyStr neo.designation

/-- `NearEarthObject.serialize` (models.py 87-96): a flat mapping with the
four output keys; a `None` name collapses to the empty string. -/
def NearEarthObject.serialize (neo : NearEarthObject) : Dict :=
  [("designation", neo.designation),
   ("name", neo.name.getD (.vStr "")),
   ("diameter_km", match neo.diameter with | .nan => .vNan | .num q => .vNum q),
   ("potentially_hazardous", .vBool neo.hazardous)]

/-- Modelled from the spec: `datetime_to_str` is the external formatting
helper from `helpers.py` (not under src/); per the spec it renders a parsed
timestamp without seconds-level precision.  It is modelled as rendering the
raw tagged value; applied to anything that is not a parsed timestamp — in
particular the `None` left by a missing time — it raises, since only
datetime objects carry the formatting method. -/
def datetime_to_str : TimeAttr → Except PyErr String
  | .parsed v => .ok (pyStr v)
  | .unset => .error (.attributeError "NoneType object has no attribute strftime")
  | .raw _ => .error (.attributeError "object has no attribute strftime")

/-- The `time_str` property (models.py 139-153): `datetime_to_str(self.time)`
with no guard on whether a time is present. -/
def CloseApproach.time_str (ca : CloseApproach) : Except PyErr String :=
  datetime_to_str ca.time

/-- Render a float with two decimal places, as the `:.2f` format specifier
does (display approximation: half-up instead of round-half-even). -/
def fmtFloat2 (q : ℚ) : String :=
  let n : ℤ := round (q * 100)
  let a := n.natAbs
  (if n < 0 then "-" else "") ++ toString (a / 100) ++ "."
    ++ (if a % 100 < 10 then "0" else "") ++ toString (a % 100)

/-- `CloseApproach.__str__` (models.py 155-167).  The f-string first renders
`self.time_str` and then dereferences `self.neo.fullname`, which raises
`AttributeError` whenever `neo` is still `None`; distance and velocity fall
back to unknown phrasing when NaN. -/
def CloseApproach.str (ca : CloseApproach) : Except PyErr String :=
  match ca.time_str with
  | .error e => .error e
  | .ok ts =>
    match ca.neo with
    | none => .error (.attributeError "NoneType object has no attribute fullname")
    | some n =>
      let d :=
        match ca.distance with
        | .num q => " a distance of " ++ fmtFloat2 q ++ " au and"
        | .nan => " an unknown distance and"
      let v :=
        match ca.velocity with
        | .num q => " a velocity of " ++ fmtFloat2 q ++ " km/s."
        | .nan => " an unknown velocity."
      .ok ("On " ++ ts ++ ", \x27" ++ n.fullname ++ "\x27 approaches Earth at" ++ d ++ v)


/-- The error text Python prints for an exception (abridged: the traceback
appendix of the diagnostic line is elided). -/
def pyErrMsg : PyErr → String
  | .valueError m => m
  | .typeError m => m
  | .keyError k => "\x27" ++ k ++ "\x27"
  | .attributeError m => m
  | .fileNotFoundError m => m

/-- A CSV file as `csv.DictReader` sees it: the header row and the data
rows.  The `csv` module itself is Python standard library, consumed at this
boundary already split into cells. -/
structure CsvFile where
  header : List String
  rows : List (List String)

/-- One `csv.DictReader` row: the header zipped against the row's cells;
cells missing at the end of a short row get the default restval `None`.
(Extra cells beyond the header, which Python collects under the `None` key,
are not modelled: no lookup in the loader uses them.) -/
def dictReaderRow : List String → List String → Dict
  | [], _ => []
  | h :: hs, [] => (h, .vNone) :: dictReaderRow hs []
  | h :: hs, v :: vs => (h, .vStr v) :: dictReaderRow hs vs

/-- Python `elem[k]` on a dict: the value, or `KeyError` when absent. -/
def pyGetItem (elem : Dict) (k : String) : Except PyErr PyVal :=
  match dget elem k with
  | some v => .ok v
  | none => .error (.keyError k)

/-- The body of the per-row `try` block of `load_neos` (extract.py 35-41):
build the `DictReader` mapping, read the four source columns (each a
possible `KeyError`, in the keyword-argument evaluation order of the call),
and construct the `NearEarthObject`. -/
def load_neos_step (header : List String) (row : List String) : Except PyErr NearEarthObject :=
  let elem := dictReaderRow header row
  match pyGetItem elem "pdes" with
  | .error e => .error e
  | .ok p =>
    match pyGetItem elem "name" with
    | .error e => .error e
    | .ok n =>
      match pyGetItem elem "pha" with
      | .error e => .error e
      | .ok h =>
        match pyGetItem elem "diameter" with
        | .error e => .error e
        | .ok d =>
          NearEarthObject.init
            [("designation", p), ("name", n), ("hazardous", h), ("diameter", d)]

/-- `load_neos` (extract.py 24-46), entity output: rows whose `try` block
raises are skipped (the `except` branch only prints), all others append
their NEO in file row order. -/
def load_neos (f : CsvFile) : List NearEarthObject :=
  f.rows.filterMap (fun r => (load_neos_step f.header r).toOption)

/-- The diagnostic a loader prints for one row: on failure, the loader tag
followed by the exception text; nothing on success. -/
def logLine {β : Type} (tag : String) : Except PyErr β → Option String
  | .ok _ => none
  | .error e => some (tag ++ pyErrMsg e)

/-- `load_neos`, diagnostic output: one printed line per failed row, naming
the loader and the exception. -/
def load_neos_log (f : CsvFile) : List String :=
  f.rows.filterMap (fun r => logLine "load_neos: " (load_neos_step f.header r))

/-- `load_neos` including the `open()` boundary: an unopenable path raises
`FileNotFoundError` to the caller; an opened file always yields the row-wise
result. -/
def load_neos_io : Option CsvFile → Except PyErr (List NearEarthObject)
  | none => .error (.fileNotFoundError "No such file or directory")
  | some f => .ok (load_neos f)

/-- Python dict lookup for a dict with `PyVal` keys (the `contents` object
from `json.load` and the `dict(zip(...))` row): later duplicate keys win, as
in dict construction, so lookup scans from the right; only a string key can
equal the string subscripts used here. -/
def pyValDictGet (kvs : List (PyVal × PyVal)) (k : String) : Except PyErr PyVal :=
  match kvs.reverse.find? (fun p => match p.1 with | .vStr s => s == k | _ => false) with
  | some p => .ok p.2
  | none => .error (.keyError k)

/-- Python `obj[k]` with a string subscript: dict lookup, or `TypeError` for
any non-dict object (as for a JSON top level that is a list or scalar). -/
def pySubscript (obj : PyVal) (k : String) : Except PyErr PyVal :=
  match obj with
  | .vDict kvs => pyValDictGet kvs k
  | _ => .error (.typeError "object is not subscriptable")

/-- Python iteration over a value, as `zip` and `for` consume it: lists
yield their elements, strings their characters, dicts their keys; everything
else raises `TypeError`. -/
def pyIter : PyVal → Except PyErr (List PyVal)
  | .vList xs => .ok xs
  | .vStr s => .ok (s.toList.map (fun c => .vStr c.toString))
  | .vDict kvs => .ok (kvs.map (fun p => p.1))
  | _ => .error (.typeError "object is not iterable")

/-- `dict(zip(fields, data))` raises `TypeError` when a key is unhashable
(a list or dict). -/
def pyHashable : PyVal → Bool
  | .vList _ => false
  | .vDict _ => false
  | _ => true

/-- The body of the per-row `try` block of `load_approaches` (extract.py
62-68): `contents["fields"]` is read inside the `try`, zipped against the
row into a dict, the four fields are read (each a possible `KeyError`), and
the `CloseApproach` is constructed. -/
def load_approaches_step (contents : PyVal) (data : PyVal) : Except PyErr CloseApproach :=
  match pySubscript contents "fields" with
  | .error e => .error e
  | .ok fieldsV =>
    match pyIter fieldsV with
    | .error e => .error e
    | .ok fields =>
      match pyIter data with
      | .error e => .error e
      | .ok row =>
        let pairs := List.zip fields row
        if !pairs.all (fun p => pyHashable p.1) then
          .error (.typeError "unhashable type")
        else
          match pyValDictGet pairs "des" with
          | .error e => .error e
          | .ok des =>
            match pyValDictGet pairs "cd" with
            | .error e => .error e
            | .ok cd =>
              match pyValDictGet pairs "dist" with
              | .error e => .error e
              | .ok dist =>
                match pyValDictGet pairs "v_rel" with
                | .error e => .error e
                | .ok vrel =>
                  CloseApproach.init
                    [("designation", des), ("time", cd), ("distance", dist), ("velocity", vrel)]

/-- `load_approaches` (extract.py 49-74), entity output.  `contents["data"]`
is evaluated outside any `try`, so a top level without a usable `data`
entry raises to the caller; each row then runs the per-row `try` block,
appending on success and skipping (with a printed diagnostic) on failure. -/
def load_approaches (contents : PyVal) : Except PyErr (List CloseApproach) :=
  match pySubscript contents "data" with
  | .error e => .error e
  | .ok dataV =>
    match pyIter dataV with
    | .error e => .error e
    | .ok rows =>
      .ok (rows.filterMap (fun d => (load_approaches_step contents d).toOption))

/-- `load_approaches`, diagnostic output: one printed line per failed row. -/
def load_approaches_log (contents : PyVal) : Except PyErr (List String) :=
  match pySubscript contents "data" with
  | .error e => .error e
  | .ok dataV =>
    match pyIter dataV with
    | .error e => .error e
    | .ok rows =>
      .ok (rows.filterMap (fun d => logLine "load_approaches: " (load_approaches_step contents d)))

/-- `load_approaches` including the `open()` boundary. -/
def load_approaches_io : Option PyVal → Except PyErr (List CloseApproach)
  | none => .error (.fileNotFoundError "No such file or directory")
  | some c => load_approaches c


/-- A CSV input whose header lacks the `diameter` column entirely. -/
def csvC2missing : CsvFile := ⟨["pdes", "name", "pha"], [["433", "Eros", "N"]]⟩

/-- The same CSV input with a `diameter` column holding an empty cell. -/
def csvC2empty : CsvFile :=
  ⟨["pdes", "name", "pha", "diameter"], [["433", "Eros", "N", ""]]⟩

/-- A two-row CSV input in which exactly the second row fails during entity
construction: its diameter cell holds non-numeric text. -/
def csvC3 : CsvFile :=
  ⟨["pdes", "name", "pha", "diameter"],
   [["433", "Eros", "N", "0.5"], ["99942", "Apophis", "Y", "abc"]]⟩

/-- The close-approach JSON input of the spec's single-row example. -/
def cadC5 : PyVal :=
  .vDict [(.vStr "fields", .vList [.vStr "des", .vStr "cd", .vStr "dist", .vStr "v_rel"]),
    (.vStr "data",
     .vList [.vList [.vStr "433", .vStr "2020-Jan-01 00:00", .vNum (mkRat 1 2), .vNum 10]])]

/-- A close-approach JSON input whose top level has `data` but no `fields`
key. -/
def cadC8 : PyVal := .vDict [(.vStr "data", .vList [.vList [.vStr "433"]])]

/-- Lookup in a one-step-extended field bag. -/
theorem dget_cons (p : String × PyVal) (d : Dict) (k : String) :
    dget (p :: d) k = if (p.1 == k) = true then some p.2 else dget d k := by
  unfold dget
  by_cases h : (p.1 == k) = true
  · rw [@List.find?_cons_of_pos _ (fun q => q.1 == k) p d h, if_pos h]
    rfl
  · rw [@List.find?_cons_of_neg _ (fun q => q.1 == k) p d h, if_neg h]

/-- Lookup distributes over appended field bags, first bag winning. -/
theorem dget_append (d₁ d₂ : Dict) (k : String) :
    dget (d₁ ++ d₂) k = (dget d₁ k).or (dget d₂ k) := by
  unfold dget
  rw [List.find?_append]
  cases List.find? (fun p => p.1 == k) d₁ <;> rfl

/-- A key absent from the CSV header is absent from every `DictReader` row
mapping. -/
theorem dget_dictReaderRow_of_not_mem (k : String) (hs : List String) (row : List String)
    (h : k ∉ hs) : dget (dictReaderRow hs row) k = none := by
  induction hs generalizing row with
  | nil => cases row <;> rfl
  | cons hd tl ih =>
    have hne : (hd == k) = false :=
      beq_eq_false_iff_ne.mpr (fun he => h (he ▸ List.mem_cons_self hd tl))
    have htl : k ∉ tl := fun hm => h (List.mem_cons_of_mem hd hm)
    cases row with
    | nil =>
      rw [dictReaderRow, dget_cons]
      simp only [hne, Bool.false_eq_true, if_false]
      exact ih [] htl
    | cons v vs =>
      rw [dictReaderRow, dget_cons]
      simp only [hne, Bool.false_eq_true, if_false]
      exact ih vs htl

/-- Splitting a per-row `Except`-valued run into kept successes and logged
failures preserves the row count. -/
theorem length_filterMap_ok_add_err {α β : Type} (g : α → Except PyErr β) (tag : String)
    (l : List α) :
    (l.filterMap (fun r => (g r).toOption)).length
      + (l.filterMap (fun r => logLine tag (g r))).length
    = l.length := by
  induction l with
  | nil => rfl
  | cons a l ih =>
    simp only [List.filterMap_cons, Except.toOption, logLine] at ih ⊢
    cases hg : g a <;> simp only [hg, List.length_cons] <;> omega

/-- The logged failures of a per-row run are counted by the failing-row
predicate. -/
theorem length_filterMap_err_eq_countP {α β : Type} (g : α → Except PyErr β) (tag : String)
    (l : List α) :
    (l.filterMap (fun r => logLine tag (g r))).length
    = l.countP (fun r => (g r).toOption.isNone) := by
  induction l with
  | nil => rfl
  | cons a l ih =>
    simp only [List.filterMap_cons, List.countP_cons, Except.toOption, logLine] at ih ⊢
    cases hg : g a <;> simp [hg, ih]

/-- When every row fails, the log records every row. -/
theorem length_filterMap_err_of_all_err {α β : Type} (g : α → Except PyErr β) (tag : String)
    (l : List α) (h : ∀ a ∈ l, ∃ e, g a = .error e) :
    (l.filterMap (fun r => logLine tag (g r))).length = l.length := by
  induction l with
  | nil => rfl
  | cons a l ih =>
    obtain ⟨e, he⟩ := h a (List.mem_cons_self a l)
    have ih2 := ih (fun b hb => h b (List.mem_cons_of_mem a hb))
    rw [List.filterMap_cons, he]
    show ((tag ++ pyErrMsg e) :: l.filterMap (fun r => logLine tag (g r))).length
        = (a :: l).length
    simp only [List.length_cons, ih2]

/-- The hazardous flag is set exactly by the string value `'Y'`. -/
theorem hazFlag_eq_true_iff (v : Option PyVal) : hazFlag v = true ↔ v = some (.vStr "Y") := by
  match v with
  | none => simp [hazFlag]
  | some (.vNum q) | some .vNan | some (.vBool _) | some .vNone
  | some (.vList _) | some (.vDict _) => simp [hazFlag]
  | some (.vStr s) =>
    by_cases h : s = "Y"
    · subst h; simp [hazFlag]
    · have hb : (s == "Y") = false := beq_eq_false_iff_ne.mpr h
      simp [hazFlag, hb, h, ite_self]

/-- When the CSV header has no `diameter` column, every row of `load_neos`
raises a `KeyError` at one of the four subscript reads. -/
theorem load_neos_step_error_of_no_diameter (header row : List String)
    (h : "diameter" ∉ header) : ∃ e, load_neos_step header row = .error e := by
  have hd : dget (dictReaderRow header row) "diameter" = none :=
    dget_dictReaderRow_of_not_mem _ _ _ h
  cases h1 : dget (dictReaderRow header row) "pdes" with
  | none => exact ⟨.keyError "pdes", by simp only [load_neos_step, pyGetItem, h1]⟩
  | some p =>
    cases h2 : dget (dictReaderRow header row) "name" with
    | none => exact ⟨.keyError "name", by simp only [load_neos_step, pyGetItem, h1, h2]⟩
    | some n =>
      cases h3 : dget (dictReaderRow header row) "pha" with
      | none => exact ⟨.keyError "pha", by simp only [load_neos_step, pyGetItem, h1, h2, h3]⟩
      | some w =>
        exact ⟨.keyError "diameter",
          by simp only [load_neos_step, pyGetItem, h1, h2, h3, hd]⟩

/-- Claim C5 (confirmed): for the JSON input with fields `des`, `cd`,
`dist`, `v_rel` and the single data row `433` / `2020-Jan-01 00:00` / `0.5`
/ `10.0`, `load_approaches` returns exactly one `CloseApproach` whose
designation is "433", whose distance is 0.5, whose velocity is 10.0, and
whose time is the non-unknown result of passing the date string through the
external time-parsing helper. -/
theorem C5_json_single_row :
    ∃ ca, load_approaches cadC5 = .ok [ca] ∧
      ca.designation = .vStr "433" ∧
      ca.distance = .num (mkRat 1 2) ∧
      ca.velocity = .num 10 ∧
      ca.time = .parsed (.vStr "2020-Jan-01 00:00") :=
  ⟨.mk (.vStr "433") (.parsed (.vStr "2020-Jan-01 00:00")) (.num (mkRat 1 2)) (.num 10) none,
    rfl, rfl, rfl, rfl, rfl⟩

/-- Claim C6 (confirmed): both constructors accept the empty field bag
without raising and apply every default: the NEO gets designation "", name
`None`, the NaN diameter sentinel, a false hazardous flag and an empty
approaches list; the approach gets designation "", an unset time, NaN
distance and velocity, and no linked NEO. -/
theorem C6_empty_info_defaults :
    NearEarthObject.init [] = .ok (.mk (.vStr "") none .nan false []) ∧
    CloseApproach.init [] = .ok (.mk (.vStr "") .unset .nan .nan none) :=
  ⟨rfl, rfl⟩

/-- Claim C7 (confirmed): `serialize` emits exactly the keys `designation`,
`name`, `diameter_km`, `potentially_hazardous`, and its `name` entry is the
in-memory name when one exists and the empty string when the in-memory name
is the `None` sentinel. -/
theorem C7_serialize_projection (neo : NearEarthObject) :
    neo.serialize.map Prod.fst
        = ["designation", "name", "diameter_km", "potentially_hazardous"] ∧
    dget neo.serialize "name" = some (neo.name.getD (.vStr "")) := by
  cases neo with
  | mk d n diam h a => exact ⟨rfl, rfl⟩

/-- Claim C9 (confirmed): on an approach whose `neo` is still `None` — the
state `load_approaches` produces — `__str__` raises `AttributeError` at the
unconditional `self.neo.fullname` dereference, and `time_str` on an unset
time passes the `None` straight to the external formatting helper, which
raises; the readable projections are only safe on linked approaches with a
present time. -/
theorem C9_unlinked_projections (ca : CloseApproach) :
    (∀ v, ca.neo = none → ca.time = .parsed v →
      ca.str = .error (.attributeError "NoneType object has no attribute fullname")) ∧
    (ca.time = .unset →
      ca.time_str = .error (.attributeError "NoneType object has no attribute strftime")) := by
  cases ca with
  | mk d t dist vel nr =>
    constructor
    · intro v hn ht
      simp only [CloseApproach.neo] at hn
      simp only [CloseApproach.time] at ht
      subst hn
      subst ht
      rfl
    · intro ht
      simp only [CloseApproach.time] at ht
      subst ht
      rfl

/-- Witness for C9: the concrete unlinked approach produced from the C5
input row raises at `__str__`, and an approach with no time raises at
`time_str`. -/
theorem C9_witness :
    (CloseApproach.mk (.vStr "433") (.parsed (.vStr "2020-Jan-01 00:00"))
        (.num (mkRat 1 2)) (.num 10) none).str
      = .error (.attributeError "NoneType object has no attribute fullname") ∧
    (CloseApproach.mk (.vStr "") .unset .nan .nan none).time_str
      = .error (.attributeError "NoneType object has no attribute strftime") :=
  ⟨(C9_unlinked_projections _).1 _ rfl rfl, (C9_unlinked_projections _).2 rfl⟩

/-- Claim C10 counterexample: the string "0" is truthy, so
`NearEarthObject.__init__` parses it and stores a genuine zero diameter —
contradicting the claim that a zero diameter cannot be represented. -/
theorem C10_counterexample :
    NearEarthObject.init [("diameter", .vStr "0")]
      = .ok (.mk (.vStr "") none (.num 0) false []) := rfl

/-- Claim C10 (amended): diameter presence is decided by truthiness, not key
presence — every falsy diameter value, the numeric 0 and 0.0 included, and
likewise a missing key, yields the NaN sentinel; a zero diameter can
therefore only enter through a truthy representation such as the string
"0". -/
theorem C10_amended_falsy_diameter (info : Dict) :
    (∀ v, dget info "diameter" = some v → pyTruthy v = false →
      ∃ neo, NearEarthObject.init info = .ok neo ∧ neo.diameter = .nan) ∧
    (dget info "diameter" = none →
      ∃ neo, NearEarthObject.init info = .ok neo ∧ neo.diameter = .nan) := by
  constructor
  · intro v hv ht
    refine ⟨.mk ((dget info "designation").getD (.vStr "")) (nameExpr (dget info "name"))
        .nan (hazFlag (dget info "hazardous")) [], ?_, rfl⟩
    simp only [NearEarthObject.init, diamExpr, hv, ht, Bool.false_eq_true, if_false]
  · intro hv
    refine ⟨.mk ((dget info "designation").getD (.vStr "")) (nameExpr (dget info "name"))
        .nan (hazFlag (dget info "hazardous")) [], ?_, rfl⟩
    simp only [NearEarthObject.init, diamExpr, hv]

/-- Witness for C10: the numeric value 0 in the diameter field yields the
NaN sentinel. -/
theorem C10_witness :
    ∃ neo, NearEarthObject.init [("diameter", .vNum 0)] = .ok neo ∧
      neo.diameter = .nan :=
  (C10_amended_falsy_diameter _).1 (.vNum 0) rfl (by decide)

/-- Claim C1 counterexample: with the diameter field holding the non-numeric
text "abc", `NearEarthObject.__init__` raises `ValueError` from `float`
instead of returning an entity carrying the NaN sentinel. -/
theorem C1_counterexample :
    NearEarthObject.init [("diameter", .vStr "abc")]
      = .error (.valueError "could not convert string to float: abc") := rfl

/-- Claim C1 (amended): a diameter, distance or velocity field holding
non-numeric text makes the constructor raise `ValueError` (which the loaders
catch per row, skipping the row) rather than yield the NaN sentinel; a valid
numeric string still parses to exactly its floating-point value. -/
theorem C1_amended_numeric_text :
    (∀ (info : Dict) (s : String), dget info "diameter" = some (.vStr s) →
      pyParseFloat s = none → s ≠ "" →
      NearEarthObject.init info
        = .error (.valueError ("could not convert string to float: " ++ s))) ∧
    (∀ (info : Dict) (s : String) (q : ℚ), dget info "diameter" = some (.vStr s) →
      pyParseFloat s = some (.num q) →
      ∃ neo, NearEarthObject.init info = .ok neo ∧ neo.diameter = .num q) ∧
    (∀ (info : Dict) (s : String), dget info "distance" = some (.vStr s) →
      pyParseFloat s = none →
      CloseApproach.init info
        = .error (.valueError ("could not convert string to float: " ++ s))) ∧
    (∀ (info : Dict) (s : String) (q : ℚ) (ca : CloseApproach),
      dget info "distance" = some (.vStr s) → pyParseFloat s = some (.num q) →
      CloseApproach.init info = .ok ca → ca.distance = .num q) ∧
    (∀ (info : Dict) (s : String), dget info "velocity" = some (.vStr s) →
      pyParseFloat s = none → ∃ e, CloseApproach.init info = .error e) ∧
    (∀ (info : Dict) (s : String) (q : ℚ) (ca : CloseApproach),
      dget info "velocity" = some (.vStr s) → pyParseFloat s = some (.num q) →
      CloseApproach.init info = .ok ca → ca.velocity = .num q) := by
  have htruthy : ∀ s : String, s ≠ "" → pyTruthy (.vStr s) = true := by
    intro s hs
    simp only [pyTruthy, Bool.not_eq_true']
    exact Bool.eq_false_iff.mpr (fun hc => hs ((String.isEmpty_iff s).mp hc))
  have hparse_ne : ∀ (s : String) (f : PyFloat), pyParseFloat s = some f → s ≠ "" := by
    intro s f hp he
    subst he
    rw [show pyParseFloat "" = none from rfl] at hp
    exact Option.noConfusion hp
  refine ⟨?_, ?_, ?_, ?_, ?_, ?_⟩
  · intro info s hdg hp hs
    simp only [NearEarthObject.init, diamExpr, hdg, htruthy s hs, if_true, pyFloat, hp]
  · intro info s q hdg hp
    refine ⟨.mk ((dget info "designation").getD (.vStr "")) (nameExpr (dget info "name"))
        (.num q) (hazFlag (dget info "hazardous")) [], ?_, rfl⟩
    simp only [NearEarthObject.init, diamExpr, hdg, htruthy s (hparse_ne s _ hp), if_true,
      pyFloat, hp]
  · intro info s hdg hp
    have hps : pyFloat (.vStr s)
        = .error (.valueError ("could not convert string to float: " ++ s)) := by
      simp only [pyFloat, hp]
    rw [CloseApproach.init.eq_def, hdg, Option.getD_some, hps]
  · intro info s q ca hdg hp hca
    have hps : pyFloat (.vStr s) = .ok (.num q) := by simp only [pyFloat, hp]
    rw [CloseApproach.init.eq_def, hdg, Option.getD_some, hps] at hca
    cases hv : pyFloat ((dget info "velocity").getD .vNan) with
    | error e => rw [hv] at hca; exact Except.noConfusion hca
    | ok w =>
      rw [hv] at hca
      have h2 := Except.ok.inj hca
      subst h2
      rfl
  · intro info s hdg hp
    have hps : pyFloat (.vStr s)
        = .error (.valueError ("could not convert string to float: " ++ s)) := by
      simp only [pyFloat, hp]
    cases hdist : pyFloat ((dget info "distance").getD .vNan) with
    | error e =>
      refine ⟨e, ?_⟩
      rw [CloseApproach.init.eq_def, hdist]
    | ok w =>
      refine ⟨.valueError ("could not convert string to float: " ++ s), ?_⟩
      rw [CloseApproach.init.eq_def, hdist, hdg, Option.getD_some, hps]
  · intro info s q ca hdg hp hca
    have hps : pyFloat (.vStr s) = .ok (.num q) := by simp only [pyFloat, hp]
    cases hdist : pyFloat ((dget info "distance").getD .vNan) with
    | error e =>
      rw [CloseApproach.init.eq_def, hdist] at hca
      exact Except.noConfusion hca
    | ok w =>
      rw [CloseApproach.init.eq_def, hdist, hdg, Option.getD_some, hps] at hca
      have h2 := Except.ok.inj hca
      subst h2
      rfl

/-- Witness for C1 at concrete inputs: the valid numeric string "2.5" in the
diameter field constructs an entity whose diameter is exactly 5/2. -/
theorem C1_witness :
    ∃ neo, NearEarthObject.init [("diameter", .vStr "2.5")] = .ok neo ∧
      neo.diameter = .num (mkRat 5 2) :=
  C1_amended_numeric_text.2.1 [("diameter", .vStr "2.5")] "2.5" (mkRat 5 2) rfl (by decide)

/-- Claim C4 (confirmed): a constructed NEO is hazardous exactly when the
source `pha` value passed as the `hazardous` field is the string `'Y'`; an
absent field, an empty string, `'N'` or any other value yields false, and
the flag is always a definite boolean, never a third state. -/
theorem C4_hazardous_iff_Y (info : Dict) (neo : NearEarthObject)
    (h : NearEarthObject.init info = .ok neo) :
    (neo.hazardous = true ↔ dget info "hazardous" = some (.vStr "Y")) ∧
    (neo.hazardous = true ∨ neo.hazardous = false) := by
  cases hd : diamExpr (dget info "diameter") with
  | error e =>
    rw [NearEarthObject.init.eq_def, hd] at h
    exact Except.noConfusion h
  | ok diam =>
    rw [NearEarthObject.init.eq_def, hd] at h
    have h2 := Except.ok.inj h
    subst h2
    exact ⟨hazFlag_eq_true_iff _, Bool.eq_false_or_eq_true _⟩

/-- Witness for C4: the field value `'Y'` makes the constructed NEO
hazardous. -/
theorem C4_witness :
    (NearEarthObject.mk (.vStr "") none .nan true []).hazardous = true :=
  (C4_hazardous_iff_Y [("hazardous", .vStr "Y")] _ rfl).1.mpr rfl

/-- Claim C2 counterexample: on a CSV whose header lacks the `diameter`
column, `load_neos` produces no entity at all for the row — the `KeyError`
from `elem["diameter"]` is caught and the row skipped — while the same row
with an empty diameter cell produces a NEO with the NaN sentinel; the two
results differ, refuting the claimed equivalence at the loader boundary. -/
theorem C2_counterexample :
    load_neos csvC2missing = [] ∧
    load_neos csvC2empty = [.mk (.vStr "433") (some (.vStr "Eros")) .nan false []] ∧
    load_neos csvC2missing ≠ load_neos csvC2empty :=
  ⟨rfl, rfl, fun h => absurd (congrArg List.length h) (by decide)⟩

/-- Claim C2 (amended): a CSV header without a `diameter` column never makes
`load_neos` raise, but every such row is skipped with a logged `KeyError`
(the loader returns no entity for it, not a NaN-diameter entity); the
absent-key / empty-string equivalence does hold one layer down, at the
constructor boundary, where a missing diameter key and an empty-string
diameter build identical entities. -/
theorem C2_amended_missing_column (f : CsvFile) (h : "diameter" ∉ f.header) :
    load_neos f = [] ∧
    (load_neos_log f).length = f.rows.length ∧
    load_neos_io (some f) = .ok [] ∧
    (∀ info : Dict, dget info "diameter" = none →
      NearEarthObject.init info = NearEarthObject.init (info ++ [("diameter", .vStr "")])) := by
  have hnil : load_neos f = [] := by
    unfold load_neos
    rw [List.filterMap_eq_nil_iff]
    intro r hr
    obtain ⟨e, he⟩ := load_neos_step_error_of_no_diameter f.header r h
    rw [he]
    rfl
  refine ⟨hnil, ?_, ?_, ?_⟩
  · unfold load_neos_log
    exact length_filterMap_err_of_all_err (load_neos_step f.header) "load_neos: " f.rows
      (fun r _ => load_neos_step_error_of_no_diameter f.header r h)
  · show Except.ok (load_neos f) = Except.ok []
    rw [hnil]
  · intro info hdi
    have h1 : ∀ k : String, ("diameter" == k) = false →
        dget (info ++ [("diameter", .vStr "")]) k = dget info k := by
      intro k hk
      rw [dget_append, dget_cons]
      simp only [hk, Bool.false_eq_true, if_false]
      exact Option.or_none
    have h2 : dget (info ++ [("diameter", .vStr "")]) "diameter" = some (.vStr "") := by
      rw [dget_append, hdi, dget_cons]
      rfl
    rw [NearEarthObject.init.eq_def, NearEarthObject.init.eq_def,
      h1 "designation" rfl, h1 "name" rfl, h1 "hazardous" rfl, h2, hdi]
    rfl

/-- Witness for C2 at the concrete diameter-less CSV input: the loader
returns no entities and logs the one failed row. -/
theorem C2_witness :
    load_neos csvC2missing = [] ∧ (load_neos_log csvC2missing).length = 1 :=
  ⟨(C2_amended_missing_column csvC2missing (by decide)).1,
   (C2_amended_missing_column csvC2missing (by decide)).2.1⟩

/-- Claim C3 (confirmed): when exactly one CSV row makes the per-row body of
`load_neos` raise, the loader returns exactly N−1 entities, logs exactly one
diagnostic line naming the NEO loader and the exception, and never lets the
row-level exception cross the loader boundary. -/
theorem C3_single_bad_row (f : CsvFile)
    (h : f.rows.countP (fun r => (load_neos_step f.header r).toOption.isNone) = 1) :
    (load_neos f).length = f.rows.length - 1 ∧
    (load_neos_log f).length = 1 ∧
    (∀ m ∈ load_neos_log f, ∃ e, m = "load_neos: " ++ pyErrMsg e) ∧
    load_neos_io (some f) = .ok (load_neos f) := by
  have hsum := length_filterMap_ok_add_err (load_neos_step f.header) "load_neos: " f.rows
  have hcnt := length_filterMap_err_eq_countP (load_neos_step f.header) "load_neos: " f.rows
  refine ⟨?_, ?_, ?_, rfl⟩
  · unfold load_neos
    omega
  · unfold load_neos_log
    rw [hcnt, h]
  · intro m hm
    unfold load_neos_log at hm
    rw [List.mem_filterMap] at hm
    obtain ⟨r, _, hr⟩ := hm
    cases hstep : load_neos_step f.header r with
    | ok neo =>
      rw [hstep] at hr
      exact Option.noConfusion hr
    | error e =>
      rw [hstep] at hr
      exact ⟨e, (Option.some.inj hr).symm⟩

/-- Witness for C3 at the concrete two-row CSV input whose second row holds
the unparsable diameter "abc": one entity is kept, one line is logged. -/
theorem C3_witness :
    (load_neos csvC3).length = 1 ∧ (load_neos_log csvC3).length = 1 :=
  ⟨(C3_single_bad_row csvC3 (by decide)).1, (C3_single_bad_row csvC3 (by decide)).2.1⟩

/-- Claim C8 counterexample: a JSON top level with a `data` array but no
`fields` key — a structure that does not match the expected fields/data
shape — does not propagate an error: the `KeyError` from
`contents["fields"]` is raised inside the per-row `try`, caught by the
per-row handler, and `load_approaches` returns an empty collection. -/
theorem C8_counterexample : load_approaches_io (some cadC8) = .ok [] := rfl

/-- Claim C8 (amended): an unopenable path makes either loader propagate an
error, and a JSON top level without a usable `data` entry (missing key, or
not a dict) also propagates; but a missing `fields` key is read inside the
per-row `try`, so that structural failure is caught by the per-row handler
and every row is skipped, returning an empty collection instead of
propagating. -/
theorem C8_amended_structural :
    load_neos_io none = .error (.fileNotFoundError "No such file or directory") ∧
    load_approaches_io none = .error (.fileNotFoundError "No such file or directory") ∧
    (∀ kvs : List (PyVal × PyVal), pyValDictGet kvs "data" = .error (.keyError "data") →
      load_approaches (.vDict kvs) = .error (.keyError "data")) ∧
    (∀ v : PyVal, (∀ kvs, v ≠ .vDict kvs) →
      load_approaches v = .error (.typeError "object is not subscriptable")) ∧
    (∀ (kvs : List (PyVal × PyVal)) (rows : List PyVal),
      pyValDictGet kvs "fields" = .error (.keyError "fields") →
      pyValDictGet kvs "data" = .ok (.vList rows) →
      load_approaches (.vDict kvs) = .ok []) := by
  refine ⟨rfl, rfl, ?_, ?_, ?_⟩
  · intro kvs hk
    rw [load_approaches.eq_def]
    show (match pyValDictGet kvs "data" with
      | .error e => Except.error e
      | .ok dataV =>
        match pyIter dataV with
        | .error e => Except.error e
        | .ok rows =>
          .ok (rows.filterMap
            (fun d => (load_approaches_step (.vDict kvs) d).toOption))) = _
    rw [hk]
  · intro v hv
    cases v with
    | vDict kvs => exact absurd rfl (hv kvs)
    | vStr s => rfl
    | vNum q => rfl
    | vNan => rfl
    | vBool b => rfl
    | vNone => rfl
    | vList xs => rfl
  · intro kvs rows hf hd
    rw [load_approaches.eq_def]
    show (match pyValDictGet kvs "data" with
      | .error e => Except.error e
      | .ok dataV =>
        match pyIter dataV with
        | .error e => Except.error e
        | .ok rows =>
          .ok (rows.filterMap
            (fun d => (load_approaches_step (.vDict kvs) d).toOption))) = _
    rw [hd]
    show Except.ok (rows.filterMap
        (fun d => (load_approaches_step (.vDict kvs) d).toOption)) = .ok []
    have hall : ∀ d ∈ rows, (load_approaches_step (.vDict kvs) d).toOption = none := by
      intro d _
      have hstep : load_approaches_step (.vDict kvs) d = .error (.keyError "fields") := by
        rw [load_approaches_step.eq_def]
        show (match pyValDictGet kvs "fields" with
          | .error e => Except.error e
          | .ok fieldsV => _) = _
        rw [hf]
      rw [hstep]
      rfl
    rw [List.filterMap_eq_nil_iff.mpr hall]

/-- Witness for C8: the empty JSON object has no `data` key, and
`load_approaches` propagates the `KeyError` instead of returning an empty
collection. -/
theorem C8_witness : load_approaches (.vDict []) = .error (.keyError "data") :=
  C8_amended_structural.2.2.1 [] rfl
